import Mathlib

/-!
Verification of `claude-code-warmup`, a Vercel cron handler that keeps a
Claude API rate-limit window warm.  The core file is `src/api/warmup.ts`
(Redis-backed refresh-token rotation); `api/warmup` in the long-lived-token
variant shares the gate, message selection and dispatch logic.

Shallow embedding: the process environment is a record of optional string
variables; the Redis store is a record carrying its current value and
injected read/write faults; the two outbound HTTP calls (OAuth token
exchange and the chat API) are modelled by their responses, supplied as
oracle inputs.  Every externally observable action (store get/set, token
exchange, chat call) is recorded in an event trace so that ordering and
"no downstream call" properties can be stated.  JavaScript truthiness on
`string | null | undefined` values is modelled explicitly by `truthy`.
-/

namespace Warmup

/-- Process environment (`process.env`), the variables `warmup.ts` reads.
A variable is `none` when unset; note that JS code frequently tests
truthiness, under which `some ""` behaves like `none`. -/
structure Env where
  REDIS_URL : Option String
  CLAUDE_REFRESH_TOKEN : Option String
  CRON_SECRET : Option String
  WARMUP_MESSAGE : Option String
deriving DecidableEq, Repr

/-- The Redis store: its current value under the fixed key
`claude_refresh_token`, plus injected faults.  `readFail = some e` means
`redis.get` throws `e`; `writeFail = some e` means `redis.set` throws `e`. -/
structure Store where
  value : Option String
  readFail : Option String
  writeFail : Option String
deriving DecidableEq, Repr

/-- JS truthiness of a `string | null | undefined` value:
truthy iff present and not the empty string. -/
def truthy : Option String → Bool
  | none => false
  | some s => s ≠ ""

/-- Body of the OAuth token-exchange response as parsed from JSON.
Either field may be absent in the raw JSON, which the TS cast
`as TokenResponse` does not check; absence is `none`. -/
structure TokenBody where
  access_token : Option String
  refresh_token : Option String
deriving DecidableEq, Repr

/-- One content block of a chat-API reply. -/
structure ContentBlock where
  type : String
  text : String
deriving DecidableEq, Repr

/-- Body of the chat-API response as parsed from JSON. -/
structure ChatBody where
  content : List ContentBlock
deriving DecidableEq, Repr

/-- An HTTP response as observed by `fetch`: `ok` is `response.ok`
(status in 2xx); `status`/`statusText`/`errText` feed the error message on
the not-ok path (`errText` is `await response.text()`); `body` is the
parsed JSON on the ok path. -/
structure HttpResp (β : Type) where
  ok : Bool
  status : Nat
  statusText : String
  errText : String
  body : β
deriving DecidableEq, Repr

/-- Observable external actions of one invocation, in order. -/
inductive Event where
  | storeGet : Event
  | storeSet (token : String) : Event
  | tokenExchange (refreshToken : String) : Event
  | chatCall (accessToken : Option String) (message : String) : Event
deriving DecidableEq, Repr

/-- The incoming request: its `Authorization` header. -/
structure Req where
  authorization : Option String
deriving DecidableEq, Repr

/-- The JSON responses the handler can produce:
401 `{error: "Unauthorized"}`, 500 `{success:false, error, timestamp}`,
or 200 `{success:true, message, claudeReply, tokenRotated, timestamp}`. -/
inductive ApiResponse where
  | unauthorized : ApiResponse
  | failure (error : String) (timestamp : String) : ApiResponse
  | success (message : String) (claudeReply : String) (tokenRotated : Bool)
      (timestamp : String) : ApiResponse
deriving DecidableEq, Repr

/-- Error thrown by `getRedis()` when `REDIS_URL` is unset. -/
def redisUrlError : String :=
  "REDIS_URL env var is not set. Link a Redis store in your Vercel project."

/-- Error thrown by `resolveRefreshToken` when neither the store nor the
`CLAUDE_REFRESH_TOKEN` seed provides a token. -/
def noSeedError : String :=
  "No refresh token found. Add CLAUDE_REFRESH_TOKEN env var as initial seed — subsequent rotated tokens will be stored in Redis automatically."

/-- Default warm-up message (`DEFAULT_WARMUP_MESSAGE` in the source). -/
def DEFAULT_WARMUP_MESSAGE : String :=
  "Hello! This is an automated warm-up message to reset my Claude Code rate limit window. Please just say 'Warmed up!' in response."

/-- Error thrown by `refreshAccessToken` on a non-ok HTTP status. -/
def tokenRefreshError (status : Nat) (statusText errText : String) : String :=
  s!"Token refresh failed: {status} {statusText} — {errText}"

/-- Error thrown by `sendWarmupMessage` on a non-ok HTTP status. -/
def anthropicApiError (status : Nat) (statusText errText : String) : String :=
  s!"Anthropic API error: {status} {statusText} — {errText}"

/-- `redis.get(KV_REFRESH_TOKEN_KEY)`: throws on injected read fault,
otherwise returns the stored value (`null` = `none`). -/
def redisGet (store : Store) : Except String (Option String) :=
  match store.readFail with
  | some e => .error e
  | none => .ok store.value

/-- `redis.set(KV_REFRESH_TOKEN_KEY, t)`: throws on injected write fault,
otherwise returns the updated store. -/
def redisSet (store : Store) (t : String) : Except String Store :=
  match store.writeFail with
  | some e => .error e
  | none => .ok { store with value := some t }

/-- `resolveRefreshToken` of `src/api/warmup.ts:28`: Redis value first
(if truthy), then the `CLAUDE_REFRESH_TOKEN` env var (if truthy), else a
configuration error.  `getRedis()` throws before any store access when
`REDIS_URL` is unset.  Returns the result together with the emitted
event trace. -/
def resolveRefreshToken (env : Env) (store : Store) :
    Except String String × List Event :=
  match env.REDIS_URL with
  | none => (.error redisUrlError, [])
  | some _ =>
    match redisGet store with
    | .error e => (.error e, [.storeGet])
    | .ok stored =>
      if truthy stored then (.ok (stored.getD ""), [.storeGet])
      else
        match env.CLAUDE_REFRESH_TOKEN with
        | some envToken =>
          if envToken ≠ "" then (.ok envToken, [.storeGet])
          else (.error noSeedError, [.storeGet])
        | none => (.error noSeedError, [.storeGet])

/-- `persistRefreshToken` of `src/api/warmup.ts:54`: write the token to
Redis under the fixed key.  `getRedis()` throws first when `REDIS_URL` is
unset (no write attempted); otherwise the write is attempted and a write
fault propagates. -/
def persistRefreshToken (env : Env) (store : Store) (token : String) :
    Except String Store × List Event :=
  match env.REDIS_URL with
  | none => (.error redisUrlError, [])
  | some _ =>
    match redisSet store token with
    | .error e => (.error e, [.storeSet token])
    | .ok store2 => (.ok store2, [.storeSet token])

/-- Result of `refreshAccessToken`: `accessToken` is `Option` because the
TS cast does not check that `access_token` is present (`none` models
`undefined`); `newRefreshToken = none` models `null` ("not rotated"). -/
structure ExchangeResult where
  accessToken : Option String
  newRefreshToken : Option String
deriving DecidableEq, Repr

/-- `refreshAccessToken` of `src/api/warmup.ts:68`: one POST to the OAuth
token endpoint.  Non-ok status throws with status and body; an ok status
returns `data.access_token` and `data.refresh_token ?? null` unchecked. -/
def refreshAccessToken (tokenResp : HttpResp TokenBody)
    (refreshToken : String) : Except String ExchangeResult × List Event :=
  if tokenResp.ok then
    (.ok { accessToken := tokenResp.body.access_token
           newRefreshToken := tokenResp.body.refresh_token },
     [.tokenExchange refreshToken])
  else
    (.error (tokenRefreshError tokenResp.status tokenResp.statusText tokenResp.errText),
     [.tokenExchange refreshToken])

/-- `data.content.find((b) => b.type === "text")?.text ?? "(no text)"`. -/
def extractReply (content : List ContentBlock) : String :=
  match content.find? (fun b => b.type == "text") with
  | some b => b.text
  | none => "(no text)"

/-- `sendWarmupMessage` of `src/api/warmup.ts:102`: one POST to the chat
API.  Non-ok status throws with status and body; an ok status returns the
first text-typed content block's text, or the `"(no text)"` sentinel. -/
def sendWarmupMessage (chatResp : HttpResp ChatBody)
    (accessToken : Option String) (message : String) :
    Except String String × List Event :=
  if chatResp.ok then
    (.ok (extractReply chatResp.body.content), [.chatCall accessToken message])
  else
    (.error (anthropicApiError chatResp.status chatResp.statusText chatResp.errText),
     [.chatCall accessToken message])

/-- The cron gate of `src/api/warmup.ts:141`:
`!cronSecret || req.headers.authorization !== Bearer cronSecret` rejects.
The gate passes iff `CRON_SECRET` is truthy and the header matches. -/
def gatePasses (env : Env) (req : Req) : Bool :=
  match env.CRON_SECRET with
  | none => false
  | some s => s ≠ "" && req.authorization == some ("Bearer " ++ s)

/-- `process.env.WARMUP_MESSAGE || DEFAULT_WARMUP_MESSAGE`. -/
def warmupMessageOf (env : Env) : String :=
  match env.WARMUP_MESSAGE with
  | some m => if m ≠ "" then m else DEFAULT_WARMUP_MESSAGE
  | none => DEFAULT_WARMUP_MESSAGE

/-- Everything one invocation produces: the HTTP response, the store
state after the invocation, and the trace of external actions. -/
structure HandlerOut where
  resp : ApiResponse
  store : Store
  events : List Event
deriving DecidableEq, Repr

/-- The default-export `handler` of `src/api/warmup.ts:135`: gate, then
resolve → exchange → conditional persistence (guard: JS-truthy new token
that differs from the input) → dispatch; any thrown error is caught and
turned into the 500 failure response.  `ts` is `new Date().toISOString()`. -/
def handler (env : Env) (store : Store) (tokenResp : HttpResp TokenBody)
    (chatResp : HttpResp ChatBody) (req : Req) (ts : String) : HandlerOut :=
  if gatePasses env req then
    let warmupMessage := warmupMessageOf env
    match resolveRefreshToken env store with
    | (.error e, evs1) => ⟨.failure e ts, store, evs1⟩
    | (.ok refreshToken, evs1) =>
      match refreshAccessToken tokenResp refreshToken with
      | (.error e, evs2) => ⟨.failure e ts, store, evs1 ++ evs2⟩
      | (.ok exch, evs2) =>
        let persistStep : Except String Store × List Event :=
          match exch.newRefreshToken with
          | some nrt =>
            if nrt ≠ "" && nrt ≠ refreshToken then
              persistRefreshToken env store nrt
            else (.ok store, [])
          | none => (.ok store, [])
        match persistStep with
        | (.error e, evs3) => ⟨.failure e ts, store, evs1 ++ evs2 ++ evs3⟩
        | (.ok store2, evs3) =>
          match sendWarmupMessage chatResp exch.accessToken warmupMessage with
          | (.error e, evs4) =>
            ⟨.failure e ts, store2, evs1 ++ evs2 ++ evs3 ++ evs4⟩
          | (.ok reply, evs4) =>
            ⟨.success "Warmup sent successfully!" reply
                (exch.newRefreshToken.isSome
                  && exch.newRefreshToken != some refreshToken) ts,
              store2, evs1 ++ evs2 ++ evs3 ++ evs4⟩
  else ⟨.unauthorized, store, []⟩

/-- Recognizer for store-write events, used to state "Rotation Persistence
is (not) invoked" over a trace. -/
def isStoreSet : Event → Bool
  | .storeSet _ => true
  | _ => false

/-! Concrete fixtures used by witnesses and counterexamples. -/

/-- A fully configured environment whose gate secret is `"sec"` and whose
bootstrap seed is `"envseed"`; no message override. -/
def envG : Env := ⟨some "redis://x", some "envseed", some "sec", none⟩

/-- A request carrying the matching `Bearer sec` header. -/
def reqG : Req := ⟨some "Bearer sec"⟩

/-- A healthy store currently holding `"seed-1"`. -/
def storeSeed : Store := ⟨some "seed-1", none, none⟩

/-- A healthy empty store. -/
def storeEmpty : Store := ⟨none, none, none⟩

/-- A store whose read operation throws `"redis down"`. -/
def storeReadFail : Store := ⟨some "seed-1", some "redis down", none⟩

/-- Token-exchange reply rotating the refresh token to `"rotated-9"`. -/
def tokenRespRotate : HttpResp TokenBody :=
  ⟨true, 200, "OK", "", ⟨some "a1", some "rotated-9"⟩⟩

/-- Token-exchange reply whose `refresh_token` field is the empty string. -/
def tokenRespEmptyRotate : HttpResp TokenBody :=
  ⟨true, 200, "OK", "", ⟨some "a1", some ""⟩⟩

/-- Ok-status token-exchange reply whose body has no `access_token`. -/
def tokenRespNoAccess : HttpResp TokenBody :=
  ⟨true, 200, "OK", "", ⟨none, some "r2"⟩⟩

/-- Token-exchange reply echoing the stored token `"seed-1"` (no rotation). -/
def tokenRespSame : HttpResp TokenBody :=
  ⟨true, 200, "OK", "", ⟨some "a1", some "seed-1"⟩⟩

/-- Chat reply whose first text-typed block follows a thinking block. -/
def chatRespText : HttpResp ChatBody :=
  ⟨true, 200, "OK", "", ⟨[⟨"thinking", "hmm"⟩, ⟨"text", "Warmed up!"⟩]⟩⟩

/-- Failing chat reply (non-2xx status). -/
def chatRespFail : HttpResp ChatBody :=
  ⟨false, 503, "Service Unavailable", "down", ⟨[]⟩⟩

/-! Helper lemmas about the event traces and success conditions of the
individual steps. -/

/-- A successful resolution emits exactly the single store read. -/
theorem resolve_ok_events (env : Env) (store : Store) (rt : String)
    (h : (resolveRefreshToken env store).1 = .ok rt) :
    (resolveRefreshToken env store).2 = [Event.storeGet] := by
  unfold resolveRefreshToken at h ⊢
  cases hru : env.REDIS_URL with
  | none => simp [hru] at h
  | some u =>
    simp only [hru] at h ⊢
    cases hget : redisGet store with
    | error e => simp [hget] at h
    | ok stored =>
      simp only [hget] at h ⊢
      by_cases ht : truthy stored
      · simp [ht]
      · simp only [ht, Bool.false_eq_true, if_false] at h ⊢
        cases hc : env.CLAUDE_REFRESH_TOKEN with
        | none => simp [hc]
        | some envToken =>
          simp only [hc] at h ⊢
          by_cases he : envToken = "" <;> simp [he]

/-- Resolution can only succeed when `REDIS_URL` is configured. -/
theorem resolve_ok_redis_url (env : Env) (store : Store) (rt : String)
    (h : (resolveRefreshToken env store).1 = .ok rt) :
    ∃ u, env.REDIS_URL = some u := by
  cases hru : env.REDIS_URL with
  | none => unfold resolveRefreshToken at h ; simp [hru] at h
  | some u => exact ⟨u, rfl⟩

/-- Resolution never returns the empty string. -/
theorem resolve_ok_ne_empty (env : Env) (store : Store) (rt : String)
    (h : (resolveRefreshToken env store).1 = .ok rt) : rt ≠ "" := by
  unfold resolveRefreshToken at h
  cases hru : env.REDIS_URL with
  | none => simp [hru] at h
  | some u =>
    simp only [hru] at h
    cases hget : redisGet store with
    | error e => simp [hget] at h
    | ok stored =>
      simp only [hget] at h
      by_cases ht : truthy stored
      · rw [if_pos ht] at h
        cases stored with
        | none => simp [truthy] at ht
        | some s =>
          simp [truthy] at ht
          simp at h
          exact h ▸ ht
      · rw [if_neg ht] at h
        cases hc : env.CLAUDE_REFRESH_TOKEN with
        | none => simp [hc] at h
        | some envToken =>
          simp only [hc] at h
          by_cases he : envToken = "" <;> simp [he] at h
          exact h ▸ he

/-- The trace of a resolution attempt is `[]` (when `REDIS_URL` is unset)
or the single store read. -/
theorem resolve_events_cases (env : Env) (store : Store) :
    (resolveRefreshToken env store).2 = []
    ∨ (resolveRefreshToken env store).2 = [Event.storeGet] := by
  unfold resolveRefreshToken
  cases hru : env.REDIS_URL with
  | none => simp
  | some u =>
    cases hget : redisGet store with
    | error e => simp
    | ok stored =>
      by_cases ht : truthy stored
      · simp [ht]
      · cases hc : env.CLAUDE_REFRESH_TOKEN with
        | none => simp [ht]
        | some envToken => by_cases he : envToken = "" <;> simp [ht, he]

/-- With `REDIS_URL` configured, a persistence attempt emits exactly the
single store write, whether or not the write succeeds. -/
theorem persist_events (env : Env) (store : Store) (t u : String)
    (hu : env.REDIS_URL = some u) :
    (persistRefreshToken env store t).2 = [Event.storeSet t] := by
  unfold persistRefreshToken
  cases hset : redisSet store t <;> simp [hu, hset]

/-- A successful resolution determines the whole result pair. -/
theorem resolve_ok_pair (env : Env) (store : Store) (rt : String)
    (h : (resolveRefreshToken env store).1 = .ok rt) :
    resolveRefreshToken env store = (.ok rt, [Event.storeGet]) := by
  rw [Prod.ext_iff]
  exact ⟨h, resolve_ok_events env store rt h⟩

/-- `extractReply` returns the text of the first text-typed block,
skipping any earlier blocks of other types. -/
theorem extractReply_first_text (pre : List ContentBlock) (b : ContentBlock)
    (suf : List ContentBlock) (hpre : ∀ c ∈ pre, c.type ≠ "text")
    (hb : b.type = "text") :
    extractReply (pre ++ b :: suf) = b.text := by
  induction pre with
  | nil =>
    unfold extractReply
    rw [List.nil_append, List.find?_cons_of_pos _ (by simp [hb])]
  | cons c cs ih =>
    have hc : c.type ≠ "text" := hpre c (by simp)
    have hrest : ∀ x ∈ cs, x.type ≠ "text" := fun x hx => hpre x (by simp [hx])
    unfold extractReply at ih ⊢
    rw [List.cons_append, List.find?_cons_of_neg _ (by simp [hc])]
    exact ih hrest

/-- `extractReply` returns the sentinel when no block is text-typed. -/
theorem extractReply_no_text (l : List ContentBlock)
    (h : ∀ c ∈ l, c.type ≠ "text") : extractReply l = "(no text)" := by
  unfold extractReply
  rw [List.find?_eq_none.mpr (by intro c hc; simp [h c hc])]

/-!  The claims. -/

/-- Claim C2: with the store reachable, `resolveRefreshToken` returns the
stored value whenever the read yields a truthy (non-empty) value,
regardless of the bootstrap variable; when the read yields an absent or
empty value it returns a truthy bootstrap value; and when both are absent
or empty it fails with the configuration error, whose text names the
missing `CLAUDE_REFRESH_TOKEN` seed variable. -/
theorem C2_resolve_precedence (env : Env) (store : Store) (u : String)
    (hu : env.REDIS_URL = some u) (hrf : store.readFail = none) :
    (∀ s, store.value = some s → s ≠ "" →
        (resolveRefreshToken env store).1 = .ok s)
    ∧ ((store.value = none ∨ store.value = some "") →
        ∀ e, env.CLAUDE_REFRESH_TOKEN = some e → e ≠ "" →
          (resolveRefreshToken env store).1 = .ok e)
    ∧ ((store.value = none ∨ store.value = some "") →
        (env.CLAUDE_REFRESH_TOKEN = none ∨ env.CLAUDE_REFRESH_TOKEN = some "") →
          (resolveRefreshToken env store).1 = .error noSeedError
          ∧ ∃ a b, noSeedError = a ++ "CLAUDE_REFRESH_TOKEN" ++ b) := by
  refine ⟨?_, ?_, ?_⟩
  · intro s hs hne
    simp [resolveRefreshToken, hu, redisGet, hrf, hs, truthy, hne]
  · rintro (hv | hv) e he hne <;>
      simp [resolveRefreshToken, hu, redisGet, hrf, hv, truthy, he, hne]
  · rintro (hv | hv) (he | he) <;>
      exact ⟨by simp [resolveRefreshToken, hu, redisGet, hrf, hv, truthy, he],
        "No refresh token found. Add ",
        " env var as initial seed — subsequent rotated tokens will be stored in Redis automatically.",
        by decide⟩

/-- Witness for C2 at concrete inputs: a store holding `"stored-7"` wins
over the configured seed `"envseed"`. -/
theorem C2_witness :
    (resolveRefreshToken envG ⟨some "stored-7", none, none⟩).1 = .ok "stored-7" :=
  (C2_resolve_precedence envG ⟨some "stored-7", none, none⟩ "redis://x" rfl rfl).1
    "stored-7" rfl (by decide)

/-- Claim C7: when the store read itself fails, `resolveRefreshToken`
propagates that error — it does not fall back to the bootstrap variable,
whatever its value. -/
theorem C7_read_failure_propagates (env : Env) (store : Store) (e u : String)
    (hu : env.REDIS_URL = some u) (hf : store.readFail = some e) :
    (resolveRefreshToken env store).1 = .error e := by
  simp [resolveRefreshToken, hu, redisGet, hf]

/-- Witness for C7: a read fault `"redis down"` surfaces even though the
seed `"envseed"` is configured. -/
theorem C7_witness :
    (resolveRefreshToken envG storeReadFail).1 = .error "redis down" :=
  C7_read_failure_propagates envG storeReadFail "redis down" "redis://x" rfl rfl

/-- Counterexample to Claim C6 as stated: persisting the empty token and
then resolving does not return it — the store now holds `""`, which the
truthiness test skips, so resolution falls back to the seed `"envseed"`. -/
theorem C6_counterexample :
    (persistRefreshToken envG storeEmpty "").1 = .ok ⟨some "", none, none⟩
    ∧ (resolveRefreshToken envG ⟨some "", none, none⟩).1 = .ok "envseed"
    ∧ (resolveRefreshToken envG ⟨some "", none, none⟩).1 ≠ .ok "" := by
  refine ⟨rfl, rfl, ?_⟩
  intro h
  rw [show (resolveRefreshToken envG ⟨some "", none, none⟩).1
        = .ok "envseed" from rfl] at h
  simp at h

/-- Claim C6 (amended to non-empty tokens): persisting a non-empty token
`T` on a healthy store and immediately resolving returns `T`. -/
theorem C6_roundtrip (env : Env) (store : Store) (T u : String)
    (hT : T ≠ "") (hu : env.REDIS_URL = some u)
    (hw : store.writeFail = none) (hrf : store.readFail = none) :
    (persistRefreshToken env store T).1 = .ok { store with value := some T }
    ∧ (resolveRefreshToken env { store with value := some T }).1 = .ok T := by
  constructor
  · simp [persistRefreshToken, hu, redisSet, hw]
  · simp [resolveRefreshToken, hu, redisGet, hrf, truthy, hT]

/-- Witness for C6: round trip of `"rotated-9"` through the empty store. -/
theorem C6_witness :
    (persistRefreshToken envG storeEmpty "rotated-9").1
      = .ok { storeEmpty with value := some "rotated-9" }
    ∧ (resolveRefreshToken envG { storeEmpty with value := some "rotated-9" }).1
      = .ok "rotated-9" :=
  C6_roundtrip envG storeEmpty "rotated-9" "redis://x" (by decide) rfl rfl rfl

/-- Claim C5 (behavior at the failing input): an ok-status token-exchange
response whose body lacks `access_token` is not rejected —
`refreshAccessToken` returns a result with no access token instead of
throwing a protocol-violation error, contradicting both the spec and the
source's own `TokenResponse` interface, which declares `access_token`
mandatory. -/
theorem C5_missing_access_token_not_rejected :
    (refreshAccessToken tokenRespNoAccess "r1").1
      = .ok { accessToken := none, newRefreshToken := some "r2" } := rfl

/-- Claim C8: on an ok-status chat reply, `sendWarmupMessage` returns the
text of the first text-typed content block, skipping earlier non-text
blocks, and the `"(no text)"` sentinel when no block is text-typed. -/
theorem C8_first_text_block (cresp : HttpResp ChatBody) (tok : Option String)
    (msg : String) (hok : cresp.ok = true) :
    (∀ pre b suf, cresp.body.content = pre ++ b :: suf →
        (∀ c ∈ pre, c.type ≠ "text") → b.type = "text" →
        (sendWarmupMessage cresp tok msg).1 = .ok b.text)
    ∧ ((∀ c ∈ cresp.body.content, c.type ≠ "text") →
        (sendWarmupMessage cresp tok msg).1 = .ok "(no text)") := by
  constructor
  · intro pre b suf hsplit hpre hb
    simp only [sendWarmupMessage, hok, if_true]
    rw [hsplit, extractReply_first_text pre b suf hpre hb]
  · intro h
    simp only [sendWarmupMessage, hok, if_true]
    rw [extractReply_no_text _ h]

/-- Witness for C8: the fixture reply `[thinking, text "Warmed up!"]`
yields `"Warmed up!"`. -/
theorem C8_witness :
    (sendWarmupMessage chatRespText (some "a1") "m").1 = .ok "Warmed up!" :=
  (C8_first_text_block chatRespText (some "a1") "m" rfl).1
    [⟨"thinking", "hmm"⟩] ⟨"text", "Warmed up!"⟩ [] rfl (by decide) rfl

/-- Claim C3: whenever the shared secret is unset or the authorization
header differs from its bearer form, the handler answers 401 Unauthorized,
leaves the store untouched, and performs no external action at all. -/
theorem C3_gate_rejects_early (env : Env) (store : Store)
    (tresp : HttpResp TokenBody) (cresp : HttpResp ChatBody) (req : Req)
    (ts : String)
    (h : ∀ s, env.CRON_SECRET = some s →
        req.authorization ≠ some ("Bearer " ++ s)) :
    handler env store tresp cresp req ts = ⟨.unauthorized, store, []⟩ := by
  have hg : gatePasses env req = false := by
    unfold gatePasses
    cases hc : env.CRON_SECRET with
    | none => rfl
    | some s => simp [h s hc]
  simp [handler, hg]

/-- Witness for C3: a wrong bearer header is turned away with no events. -/
theorem C3_witness :
    handler envG storeSeed tokenRespRotate chatRespText ⟨some "Bearer wrong"⟩ "t0"
      = ⟨.unauthorized, storeSeed, []⟩ :=
  C3_gate_rejects_early envG storeSeed tokenRespRotate chatRespText
    ⟨some "Bearer wrong"⟩ "t0"
    (by intro s hs; simp [envG] at hs; subst hs; decide)

/-- Claim C4: on a rotated exchange, the store write happens before the
dispatch call: if the write succeeds but dispatch fails, the invocation
reports failure while the store already holds the new token, and if the
write fails, dispatch is never attempted. -/
theorem C4_persist_precedes_dispatch (env : Env) (store : Store)
    (tresp : HttpResp TokenBody) (cresp : HttpResp ChatBody) (req : Req)
    (ts rt nrt : String)
    (hg : gatePasses env req = true)
    (hr : (resolveRefreshToken env store).1 = .ok rt)
    (hok : tresp.ok = true)
    (hn : tresp.body.refresh_token = some nrt)
    (h1 : nrt ≠ "") (h2 : nrt ≠ rt) :
    (store.writeFail = none → cresp.ok = false →
        handler env store tresp cresp req ts
          = ⟨.failure (anthropicApiError cresp.status cresp.statusText
                cresp.errText) ts,
             { store with value := some nrt },
             [Event.storeGet, Event.tokenExchange rt, Event.storeSet nrt,
              Event.chatCall tresp.body.access_token (warmupMessageOf env)]⟩)
    ∧ (∀ e, store.writeFail = some e →
        handler env store tresp cresp req ts
          = ⟨.failure e ts, store,
             [Event.storeGet, Event.tokenExchange rt, Event.storeSet nrt]⟩) := by
  have hpair := resolve_ok_pair env store rt hr
  obtain ⟨u, hu⟩ := resolve_ok_redis_url env store rt hr
  constructor
  · intro hw hco
    simp [handler, hg, hpair, refreshAccessToken, hok, hn, h1, h2,
      persistRefreshToken, hu, redisSet, hw, sendWarmupMessage, hco]
  · intro e hw
    simp [handler, hg, hpair, refreshAccessToken, hok, hn, h1, h2,
      persistRefreshToken, hu, redisSet, hw]

/-- Witness for C4: rotation to `"rotated-9"` followed by a 503 from the
chat API leaves the rotated token in the store and reports failure. -/
theorem C4_witness :
    handler envG storeSeed tokenRespRotate chatRespFail reqG "t0"
      = ⟨.failure (anthropicApiError 503 "Service Unavailable" "down") "t0",
         { storeSeed with value := some "rotated-9" },
         [Event.storeGet, Event.tokenExchange "seed-1",
          Event.storeSet "rotated-9",
          Event.chatCall (some "a1") DEFAULT_WARMUP_MESSAGE]⟩ :=
  (C4_persist_precedes_dispatch envG storeSeed tokenRespRotate chatRespFail
    reqG "t0" "seed-1" "rotated-9" (by decide) rfl rfl rfl (by decide)
    (by decide)).1 rfl rfl

/-- Claim C9: an exchange reply whose `refresh_token` is the empty string,
against a (necessarily non-empty) input token, produces a success response
with `tokenRotated = true` although no store write is ever performed: the
persistence guard tests JS truthiness while the flag only tests against
`null`. -/
theorem C9_empty_rotation_quirk (env : Env) (store : Store)
    (tresp : HttpResp TokenBody) (cresp : HttpResp ChatBody) (req : Req)
    (ts rt : String)
    (hg : gatePasses env req = true)
    (hr : (resolveRefreshToken env store).1 = .ok rt)
    (hok : tresp.ok = true)
    (hn : tresp.body.refresh_token = some "")
    (hco : cresp.ok = true) :
    (handler env store tresp cresp req ts).resp
      = .success "Warmup sent successfully!" (extractReply cresp.body.content)
          true ts
    ∧ (handler env store tresp cresp req ts).events.filter isStoreSet = [] := by
  have hpair := resolve_ok_pair env store rt hr
  have hne : ¬("" : String) = rt :=
    fun h => resolve_ok_ne_empty env store rt hr h.symm
  have hout : handler env store tresp cresp req ts
      = ⟨.success "Warmup sent successfully!" (extractReply cresp.body.content)
            true ts,
         store,
         [Event.storeGet, Event.tokenExchange rt,
          Event.chatCall tresp.body.access_token (warmupMessageOf env)]⟩ := by
    simp [handler, hg, hpair, refreshAccessToken, hok, hn,
      sendWarmupMessage, hco, hne]
  rw [hout]
  exact ⟨rfl, by simp [isStoreSet]⟩

/-- Witness for C9 at concrete inputs: stored token `"seed-1"`, exchange
replying `refresh_token: ""` — success reports rotation, no store write. -/
theorem C9_witness :
    (handler envG storeSeed tokenRespEmptyRotate chatRespText reqG "t0").resp
      = .success "Warmup sent successfully!" "Warmed up!" true "t0"
    ∧ (handler envG storeSeed tokenRespEmptyRotate chatRespText reqG
        "t0").events.filter isStoreSet = [] :=
  C9_empty_rotation_quirk envG storeSeed tokenRespEmptyRotate chatRespText
    reqG "t0" "seed-1" (by decide) rfl rfl rfl rfl

/-- Counterexample to Claim C1 as stated: the exchange returns the
refresh-token value `""`, which differs from the input `"seed-1"`, yet
`persistRefreshToken` is never invoked (no store-write event) while the
success response still reports `tokenRotated = true`. -/
theorem C1_counterexample :
    tokenRespEmptyRotate.body.refresh_token = some ""
    ∧ ("" : String) ≠ "seed-1"
    ∧ (resolveRefreshToken envG storeSeed).1 = .ok "seed-1"
    ∧ (handler envG storeSeed tokenRespEmptyRotate chatRespText reqG
        "t0").events.filter isStoreSet = []
    ∧ (handler envG storeSeed tokenRespEmptyRotate chatRespText reqG
        "t0").resp
      = .success "Warmup sent successfully!" "Warmed up!" true "t0" :=
  ⟨rfl, by decide, rfl, by decide, by decide⟩

/-- Claim C1 (amended: "new refresh-token value" restricted to non-empty
values): when the exchange returns a non-empty refresh token different
from the input, exactly one store write — with that value — occurs and a
success response reports `tokenRotated = true`; when the exchange omits
the field or echoes the input, no store write occurs and a success
response reports `tokenRotated = false`. -/
theorem C1_rotation_persistence_and_flag (env : Env) (store : Store)
    (tresp : HttpResp TokenBody) (cresp : HttpResp ChatBody) (req : Req)
    (ts rt : String)
    (hg : gatePasses env req = true)
    (hr : (resolveRefreshToken env store).1 = .ok rt)
    (hok : tresp.ok = true) :
    (∀ nrt, tresp.body.refresh_token = some nrt → nrt ≠ "" → nrt ≠ rt →
        (handler env store tresp cresp req ts).events.filter isStoreSet
            = [Event.storeSet nrt]
        ∧ ∀ m r b, (handler env store tresp cresp req ts).resp
            = .success m r b ts → b = true)
    ∧ ((tresp.body.refresh_token = none ∨ tresp.body.refresh_token = some rt) →
        (handler env store tresp cresp req ts).events.filter isStoreSet = []
        ∧ ∀ m r b, (handler env store tresp cresp req ts).resp
            = .success m r b ts → b = false) := by
  have hpair := resolve_ok_pair env store rt hr
  obtain ⟨u, hu⟩ := resolve_ok_redis_url env store rt hr
  constructor
  · intro nrt hn h1 h2
    cases hw : store.writeFail with
    | some e =>
      have hout : handler env store tresp cresp req ts
          = ⟨.failure e ts, store,
             [Event.storeGet, Event.tokenExchange rt, Event.storeSet nrt]⟩ := by
        simp [handler, hg, hpair, refreshAccessToken, hok, hn, h1, h2,
          persistRefreshToken, hu, redisSet, hw]
      rw [hout]
      exact ⟨by simp [isStoreSet], by intro m r b hres; simp at hres⟩
    | none =>
      cases hco : cresp.ok with
      | false =>
        have hout : handler env store tresp cresp req ts
            = ⟨.failure (anthropicApiError cresp.status cresp.statusText
                  cresp.errText) ts,
               { store with value := some nrt },
               [Event.storeGet, Event.tokenExchange rt, Event.storeSet nrt,
                Event.chatCall tresp.body.access_token (warmupMessageOf env)]⟩ := by
          simp [handler, hg, hpair, refreshAccessToken, hok, hn, h1, h2,
            persistRefreshToken, hu, redisSet, hw, sendWarmupMessage, hco]
        rw [hout]
        exact ⟨by simp [isStoreSet], by intro m r b hres; simp at hres⟩
      | true =>
        have hout : handler env store tresp cresp req ts
            = ⟨.success "Warmup sent successfully!"
                  (extractReply cresp.body.content) true ts,
               { store with value := some nrt },
               [Event.storeGet, Event.tokenExchange rt, Event.storeSet nrt,
                Event.chatCall tresp.body.access_token (warmupMessageOf env)]⟩ := by
          simp [handler, hg, hpair, refreshAccessToken, hok, hn, h1, h2,
            persistRefreshToken, hu, redisSet, hw, sendWarmupMessage, hco]
        rw [hout]
        refine ⟨by simp [isStoreSet], ?_⟩
        intro m r b hres
        simp only [ApiResponse.success.injEq] at hres
        exact hres.2.2.1.symm
  · rintro (hn | hn) <;>
      (cases hco : cresp.ok with
       | false =>
         have hout : handler env store tresp cresp req ts
             = ⟨.failure (anthropicApiError cresp.status cresp.statusText
                   cresp.errText) ts, store,
                [Event.storeGet, Event.tokenExchange rt,
                 Event.chatCall tresp.body.access_token
                   (warmupMessageOf env)]⟩ := by
           simp [handler, hg, hpair, refreshAccessToken, hok, hn,
             sendWarmupMessage, hco]
         rw [hout]
         exact ⟨by simp [isStoreSet], by intro m r b hres; simp at hres⟩
       | true =>
         have hout : handler env store tresp cresp req ts
             = ⟨.success "Warmup sent successfully!"
                   (extractReply cresp.body.content) false ts, store,
                [Event.storeGet, Event.tokenExchange rt,
                 Event.chatCall tresp.body.access_token
                   (warmupMessageOf env)]⟩ := by
           simp [handler, hg, hpair, refreshAccessToken, hok, hn,
             sendWarmupMessage, hco]
         rw [hout]
         refine ⟨by simp [isStoreSet], ?_⟩
         intro m r b hres
         simp only [ApiResponse.success.injEq] at hres
         exact hres.2.2.1.symm)

/-- Witness for C1: rotation to `"rotated-9"` yields exactly one store
write carrying that value. -/
theorem C1_witness :
    (handler envG storeSeed tokenRespRotate chatRespText reqG
        "t0").events.filter isStoreSet = [Event.storeSet "rotated-9"]
    ∧ (handler envG storeSeed tokenRespSame chatRespText reqG
        "t0").events.filter isStoreSet = [] :=
  ⟨((C1_rotation_persistence_and_flag envG storeSeed tokenRespRotate
      chatRespText reqG "t0" "seed-1" (by decide) rfl rfl).1 "rotated-9" rfl
      (by decide) (by decide)).1,
   ((C1_rotation_persistence_and_flag envG storeSeed tokenRespSame
      chatRespText reqG "t0" "seed-1" (by decide) rfl rfl).2
      (Or.inr rfl)).1⟩

/-- Claim C10: past the gate, every chat call carries the configured
message — the `WARMUP_MESSAGE` override if it is set and non-empty, the
fixed default otherwise. -/
theorem C10_message_selection (env : Env) (store : Store)
    (tresp : HttpResp TokenBody) (cresp : HttpResp ChatBody) (req : Req)
    (ts : String) (hg : gatePasses env req = true) :
    (∀ tok msg,
        Event.chatCall tok msg ∈ (handler env store tresp cresp req ts).events →
        msg = warmupMessageOf env)
    ∧ ((env.WARMUP_MESSAGE = none ∨ env.WARMUP_MESSAGE = some "") →
        warmupMessageOf env = DEFAULT_WARMUP_MESSAGE)
    ∧ (∀ m, env.WARMUP_MESSAGE = some m → m ≠ "" →
        warmupMessageOf env = m) := by
  refine ⟨?_, ?_, ?_⟩
  · intro tok msg hmem
    rcases hres : resolveRefreshToken env store with ⟨r, evs⟩
    have hcases := resolve_events_cases env store
    rw [hres] at hcases
    cases r with
    | error e =>
      simp only [handler, hg, if_true, hres] at hmem
      rcases hcases with h | h
      · rw [show evs = [] from h] at hmem
        simp at hmem
      · rw [show evs = [Event.storeGet] from h] at hmem
        simp at hmem
    | ok rt =>
      have hr1 : (resolveRefreshToken env store).1 = .ok rt := by rw [hres]
      have hpair := resolve_ok_pair env store rt hr1
      obtain ⟨u, hu⟩ := resolve_ok_redis_url env store rt hr1
      cases hok : tresp.ok with
      | false => simp [handler, hg, hpair, refreshAccessToken, hok] at hmem
      | true =>
        cases hn : tresp.body.refresh_token with
        | none =>
          cases hco : cresp.ok <;>
            [skip; skip] <;>
            simp [handler, hg, hpair, refreshAccessToken, hok, hn,
              sendWarmupMessage, hco] at hmem <;>
            exact hmem.2
        | some nrt =>
          by_cases h1 : nrt = ""
          · cases hco : cresp.ok <;>
              simp [handler, hg, hpair, refreshAccessToken, hok, hn, h1,
                sendWarmupMessage, hco] at hmem <;>
              exact hmem.2
          · by_cases h2 : nrt = rt
            · cases hco : cresp.ok <;>
                simp [handler, hg, hpair, refreshAccessToken, hok, hn, h1,
                  h2, sendWarmupMessage, hco] at hmem <;>
                exact hmem.2
            · cases hw : store.writeFail with
              | some e =>
                simp [handler, hg, hpair, refreshAccessToken, hok, hn, h1,
                  h2, persistRefreshToken, hu, redisSet, hw] at hmem
              | none =>
                cases hco : cresp.ok <;>
                  simp [handler, hg, hpair, refreshAccessToken, hok, hn,
                    h1, h2, persistRefreshToken, hu, redisSet, hw,
                    sendWarmupMessage, hco] at hmem <;>
                  exact hmem.2
  · rintro (h | h) <;> simp [warmupMessageOf, h]
  · intro m hm hne
    simp [warmupMessageOf, hm, hne]

/-- Witness for C10: with no override configured, the dispatched message
is the fixed default. -/
theorem C10_witness :
    DEFAULT_WARMUP_MESSAGE = warmupMessageOf envG
    ∧ warmupMessageOf envG = DEFAULT_WARMUP_MESSAGE :=
  ⟨(C10_message_selection envG storeSeed tokenRespRotate chatRespText reqG
      "t0" (by decide)).1 (some "a1") DEFAULT_WARMUP_MESSAGE (by decide),
   (C10_message_selection envG storeSeed tokenRespRotate chatRespText reqG
      "t0" (by decide)).2.1 (Or.inl rfl)⟩

end Warmup
